import Mathlib

/-
Verification development for the dunite repository (a WebSocket server
speaking the Minecraft Bedrock protocol).  The definitions below are a
shallow embedding of the session layer (dunite/client.py), the server
runtime (dunite/app.py), the command types (dunite/types/commands.py)
and the WebSocket handler (dunite/ws/server.py).  Python dicts are
modelled as ordered association lists of JSON values, asyncio futures as
an explicit latch state, and the nondeterministic inputs (uuid4 results,
socket failures, the awaited reply) as explicit parameters.
-/

namespace Dunite

/- ===== JSON values (Python dict / list-free fragment used by the code) ===== -/

mutual

inductive J where
  | jnull : J
  | jint : Int → J
  | jstr : String → J
  | jobj : JFields → J

inductive JFields where
  | nil : JFields
  | cons : String → J → JFields → JFields

end

/-- Conversion from a plain list of key/value pairs, used to write object literals. -/
def JFields.ofList : List (String × J) → JFields
  | [] => JFields.nil
  | (k, v) :: rest => JFields.cons k v (JFields.ofList rest)

/-- Lookup of a key among the fields of an object (first match, like a Python dict). -/
def JFields.get : JFields → String → Option J
  | JFields.nil, _ => none
  | JFields.cons k v rest, key => if k == key then some v else JFields.get rest key

/-- Python subscript or `.get` on a value known to be a dict; non-objects have no fields. -/
def J.get : J → String → Option J
  | J.jobj fs, key => JFields.get fs key
  | _, _ => none

/-- Python `dict.get(key, default)`.  Every use in this development applies it to
a dict value, matching the source, where a non-dict would instead raise. -/
def pyGet (o : J) (k : String) (d : J) : J := (J.get o k).getD d

/-- Python truthiness of `x != 0` for a JSON value, as in CommandResponse.__post_init__:
an int compares numerically and any non-int value is unequal to 0. -/
def pyNeZero : J → Bool
  | J.jint n => n != 0
  | _ => true

/-- One character of JSON string escaping (quote and backslash), as in json.dumps. -/
def jescapeChar (c : Char) : String :=
  if c == '"' then "\\\"" else if c == '\\' then "\\\\" else String.singleton c

def jescape (s : String) : String := String.join (s.data.map jescapeChar)

mutual

/-- Python `json.dumps` with its default separators, as used by Client.send_message. -/
def jdump : J → String
  | J.jnull => "null"
  | J.jint n => toString n
  | J.jstr s => "\"" ++ jescape s ++ "\""
  | J.jobj fs => "\x7b" ++ jdumpFields fs ++ "\x7d"

def jdumpFields : JFields → String
  | JFields.nil => ""
  | JFields.cons k v JFields.nil => "\"" ++ jescape k ++ "\": " ++ jdump v
  | JFields.cons k v (JFields.cons k2 v2 rest) =>
      "\"" ++ jescape k ++ "\": " ++ jdump v ++ ", "
        ++ jdumpFields (JFields.cons k2 v2 rest)

end

/-- Python `needle in haystack` on strings (substring test), as in
Client.run_command line 163. -/
def pyInStr (needle : String) : List Char → Bool
  | [] => needle.data.isEmpty
  | c :: rest => List.isPrefixOf needle.data (c :: rest) || pyInStr needle rest

/- ===== WebSocket handler (dunite/ws/server.py, class WebSocketHandler) ===== -/

/-- A frame written to the socket by WebSocketHandler: either a FIN text frame
(`send`, line 128) or a close frame carrying a 2-byte code (`close`, line 155). -/
inductive WSFrame where
  | text : String → WSFrame
  | closeFrame : Nat → WSFrame
deriving DecidableEq

/-- State of one WebSocketHandler: the `_closed` flag and the ordered trace of
frames written to the writer. -/
structure WSState where
  closed : Bool
  written : List WSFrame
deriving DecidableEq

/-- WebSocketHandler.send (lines 124-130): raises WebSocketError when closed,
otherwise writes one unmasked FIN text frame.  `ioFail` models the underlying
`writer.write`/`drain` raising; the returned Bool is true when the call raised. -/
def WSState.send (w : WSState) (data : String) (ioFail : Bool) : WSState × Bool :=
  if w.closed then (w, true)
  else if ioFail then (w, true)
  else ({ w with written := w.written ++ [WSFrame.text data] }, false)

/-- WebSocketHandler.close (lines 149-163): returns at once when `_closed` is
already set, otherwise sets `_closed` first and then writes the close frame
(a write failure is caught internally, leaving the flag set). -/
def WSState.close (w : WSState) (code : Nat) (ioFail : Bool) : WSState :=
  if w.closed then w
  else if ioFail then { w with closed := true }
  else { closed := true, written := w.written ++ [WSFrame.closeFrame code] }

/-- One operation issued against a WebSocketHandler, with its io-failure oracle. -/
inductive WSOp where
  | send : String → Bool → WSOp
  | close : Nat → Bool → WSOp

/-- Effect of one operation on the handler state. -/
def WSState.step (w : WSState) : WSOp → WSState
  | WSOp.send d io => (w.send d io).1
  | WSOp.close c io => w.close c io

/-- Modelled from the spec: the CloseCode enum lives in dunite/ws/frames.py,
which is not present under src/.  Spec section 4.3 lists the close codes used
by the system as 1000 (NORMAL) and 1001 (GOING_AWAY). -/
def CloseCode.NORMAL : Nat := 1000

/-- Modelled from the spec: see CloseCode.NORMAL. -/
def CloseCode.GOING_AWAY : Nat := 1001

/- ===== Futures and the pending-request table ===== -/

/-- State of one asyncio.Future used as a command waiter. -/
inductive FutureState where
  | pending : FutureState
  | done : J → FutureState
  | cancelled : FutureState

/-- asyncio `future.done()`: true once resolved or cancelled. -/
def FutureState.isDone : FutureState → Bool
  | FutureState.pending => false
  | _ => true

/-- asyncio `future.cancel()` on a waiter: only a still-pending future moves
to cancelled. -/
def cancelFuture : FutureState → FutureState
  | FutureState.pending => FutureState.cancelled
  | f => f

/-- The `_pending_requests` dict: requestId → waiter, in insertion order. -/
abbrev PendingTable := List (String × FutureState)

/-- Python `key in dict`. -/
def dictMem (t : PendingTable) (k : String) : Bool := t.any fun p => p.1 == k

/-- Python `dict[key]` / `dict.get(key)` as an Option. -/
def dictGet (t : PendingTable) (k : String) : Option FutureState :=
  (t.find? fun p => p.1 == k).map Prod.snd

/-- Python `dict[key] = value`: update in place, else append (insertion order kept). -/
def dictSet (t : PendingTable) (k : String) (v : FutureState) : PendingTable :=
  if dictMem t k then t.map fun p => if p.1 == k then (k, v) else p
  else t ++ [(k, v)]

/-- Python `dict.pop(key, None)`. -/
def dictPop (t : PendingTable) (k : String) : PendingTable :=
  t.filter fun p => p.1 != k

/- ===== Commands (dunite/types/commands.py) ===== -/

/-- The Command dataclass: name, optional args, optional input_data. -/
structure Command where
  name : String
  args : Option String
  input_data : Option J

/-- Command.__str__: name plus args when args is truthy (neither None nor empty). -/
def Command.str (c : Command) : String :=
  match c.args with
  | some a => if a == "" then c.name else c.name ++ " " ++ a
  | none => c.name

/-- Python whitespace characters recognised by str.strip and str.split
(space, tab, newline, carriage return, vertical tab, form feed). -/
def pyIsSpace (c : Char) : Bool :=
  c == ' ' || c == '\t' || c == '\n' || c == '\r'
    || c == Char.ofNat 11 || c == Char.ofNat 12

/-- Drop the leading run of whitespace from a character list. -/
def dropSpaces : List Char → List Char
  | [] => []
  | c :: rest => if pyIsSpace c then dropSpaces rest else c :: rest

/-- Python `str.strip()`: remove trailing then leading whitespace. -/
def pyStrip (s : List Char) : List Char :=
  dropSpaces (dropSpaces s.reverse).reverse

/-- Python `str.split(maxsplit=1)` with no separator: skip leading whitespace,
take the first token, and return the remainder after the separating run
(omitted when empty). -/
def pySplitMax1 (s : List Char) : List (List Char) :=
  let t := dropSpaces s
  if t = [] then []
  else
    let nm := t.takeWhile fun c => !pyIsSpace c
    let rest := dropSpaces (t.dropWhile fun c => !pyIsSpace c)
    if rest = [] then [nm] else [nm, rest]

/-- Command.parse (commands.py lines 77-88): strip, split with maxsplit 1,
and read parts[0].  A whitespace-only command line yields an empty parts
list, so `parts[0]` raises IndexError; that failure is the `none` result. -/
def Command.parse (command_line : String) : Option Command :=
  match pySplitMax1 (pyStrip command_line.data) with
  | [] => none
  | [n] => some ⟨String.mk n, none, none⟩
  | n :: r :: _ => some ⟨String.mk n, some (String.mk r), none⟩

/- ===== Context (dunite/context.py) ===== -/

/-- The command line that Context.reply builds (line 58): a literal say prefix. -/
def reply_command_line (message : String) : String := "say " ++ message

/-- Outcome of the parsing step of Context.run_command with a string argument:
either the uncaught IndexError from Command.parse, or the parsed Command that
is passed on to Client.run_command. -/
inductive CtxRunOutcome where
  | indexError : CtxRunOutcome
  | proceeds : Command → CtxRunOutcome

/-- Context.run_command lines 68-70 for a string argument: Command.parse is
called with no exception handling around it. -/
def Context.run_command_parse (command : String) : CtxRunOutcome :=
  match Command.parse command with
  | none => CtxRunOutcome.indexError
  | some c => CtxRunOutcome.proceeds c

/- ===== The Client session layer (dunite/client.py) ===== -/

/-- State of one Client: its WebSocketHandler, the `_subscribed_events` set
(event-name strings), the `_pending_requests` table, and the `_closed` flag. -/
structure Client where
  ws : WSState
  subscribed : List String
  pending : PendingTable
  closedFlag : Bool

/-- The Client.closed property (line 61): `_closed or handler.closed`. -/
def Client.closed (c : Client) : Bool := c.closedFlag || c.ws.closed

/-- Client.send_message (lines 63-76): raise ClientError when closed, else
json.dumps the message and send it through the handler (any exception there
becomes a ClientError).  The Bool result is true when the call raised. -/
def Client.send_message (c : Client) (m : J) (ioFail : Bool) : Client × Bool :=
  if c.closed then (c, true)
  else
    let r := c.ws.send (jdump m) ioFail
    ({ c with ws := r.1 }, r.2)

/-- The envelope built by Client.run_command (lines 142-154), with the dict
keys in source order. -/
def commandRequestEnvelope (request_id : String) (command_line : String) : J :=
  J.jobj (JFields.ofList
    [("header", J.jobj (JFields.ofList
       [("version", J.jint 1),
        ("requestId", J.jstr request_id),
        ("messagePurpose", J.jstr "commandRequest"),
        ("messageType", J.jstr "commandRequest")])),
     ("body", J.jobj (JFields.ofList
       [("version", J.jint 1),
        ("commandLine", J.jstr command_line),
        ("origin", J.jobj (JFields.ofList [("type", J.jstr "player")]))]))])

/-- The first half of Client.run_command (lines 141-160): build the envelope,
install a fresh pending waiter keyed by the generated requestId, then send the
message on the resulting state.  `request_id` stands for the `uuid.uuid4()`
result; the components are the state after the send, the envelope, and the
send failure flag. -/
def Client.run_command_send (c : Client) (request_id : String) (cmd : Command)
    (ioFail : Bool) : Client × J × Bool :=
  let message := commandRequestEnvelope request_id cmd.str
  let c1 := { c with pending := dictSet c.pending request_id FutureState.pending }
  let r := c1.send_message message ioFail
  (r.1, message, r.2)

/-- Possible completions of `await asyncio.wait_for(future, timeout=10.0)`:
the reply value, asyncio.TimeoutError, or CancelledError from a close. -/
inductive AwaitResult where
  | delivered : J → AwaitResult
  | timedOut : AwaitResult
  | cancelledErr : AwaitResult

/-- The waiter timeout of Client.run_command line 161 (`timeout=10.0`). -/
def commandTimeoutSeconds : Nat := 10

/-- Result of Client.run_command as observed by the caller. -/
inductive RunOutcome where
  /-- A CommandResponse value: code, status_message, raw_response. -/
  | success : J → J → J → RunOutcome
  /-- A raised CommandError: message, code, command. -/
  | commandError : J → J → J → RunOutcome
  /-- An exception other than CommandError escaping (KeyError, TypeError). -/
  | uncaught : RunOutcome
  /-- CancelledError propagating out of the await. -/
  | cancelledError : RunOutcome

/-- CommandResponse.from_dict followed by __post_init__ (commands.py lines
32-54): read statusCode (default -1) and statusMessage (default string) from
the reply body; a non-zero code raises CommandError whose command field is the
reply body commandLine, defaulting to the string unknown. -/
def CommandResponse.from_dict (data : J) : RunOutcome :=
  let body := pyGet data "body" (J.jobj JFields.nil)
  let code := pyGet body "statusCode" (J.jint (-1))
  let status_message := pyGet body "statusMessage" (J.jstr "Unknown error")
  if pyNeZero code then
    RunOutcome.commandError status_message code
      (pyGet (pyGet data "body" (J.jobj JFields.nil)) "commandLine" (J.jstr "unknown"))
  else
    RunOutcome.success code status_message data

/-- Client.run_command lines 163-167: an error purpose (substring test) raises
CommandError with the reply statusMessage, code -1 and the original command
line; otherwise the reply goes through CommandResponse.from_dict. -/
def processResponse (response : J) (command_line : String) : RunOutcome :=
  match (J.get response "header").bind fun h => J.get h "messagePurpose" with
  | some (J.jstr purpose) =>
      if pyInStr "error" purpose.data then
        match (J.get response "body").bind fun b => J.get b "statusMessage" with
        | some m => RunOutcome.commandError m (J.jint (-1)) (J.jstr command_line)
        | none => RunOutcome.uncaught
      else CommandResponse.from_dict response
  | _ => RunOutcome.uncaught

/-- The second half of Client.run_command (lines 159-171): the await completes
with `r`; the finally block pops the pending entry on every path; a timeout
raises CommandError with code -1 and the original command line. -/
def Client.run_command_await (c : Client) (request_id : String)
    (command_line : String) (r : AwaitResult) : Client × RunOutcome :=
  let popped : Client := { c with pending := dictPop c.pending request_id }
  match r with
  | AwaitResult.delivered v => (popped, processResponse v command_line)
  | AwaitResult.timedOut =>
      (popped, RunOutcome.commandError (J.jstr "Command timed out")
        (J.jint (-1)) (J.jstr command_line))
  | AwaitResult.cancelledErr => (popped, RunOutcome.cancelledError)

/-- Outcome of Client.subscribe / Client.unsubscribe. -/
inductive SubOutcome where
  | noop : SubOutcome
  | ok : SubOutcome
  | subscriptionError : SubOutcome

/-- Python `set.add` on the subscription set (insertion order kept). -/
def setAdd (s : List String) (e : String) : List String :=
  if s.contains e then s else s ++ [e]

/-- Python `set.remove` on the subscription set. -/
def setRemove (s : List String) (e : String) : List String :=
  s.filter fun x => x != e

/-- The envelope built by Client.subscribe / Client.unsubscribe (lines 183-191
and 209-217), with the dict keys in source order. -/
def subscribeEnvelope (request_id : String) (purpose : String)
    (event_name : String) : J :=
  J.jobj (JFields.ofList
    [("header", J.jobj (JFields.ofList
       [("version", J.jint 1),
        ("requestId", J.jstr request_id),
        ("messagePurpose", J.jstr purpose),
        ("messageType", J.jstr "commandRequest")])),
     ("body", J.jobj (JFields.ofList [("eventName", J.jstr event_name)]))])

/-- Client.subscribe (lines 173-197): return at once when already subscribed;
otherwise send the subscribe envelope and only then add the event to the set;
a send failure raises SubscriptionError and leaves the set unchanged. -/
def Client.subscribe (c : Client) (event_name : String) (request_id : String)
    (ioFail : Bool) : Client × SubOutcome :=
  if c.subscribed.contains event_name then (c, SubOutcome.noop)
  else
    let r := c.send_message (subscribeEnvelope request_id "subscribe" event_name) ioFail
    if r.2 then (r.1, SubOutcome.subscriptionError)
    else ({ r.1 with subscribed := setAdd r.1.subscribed event_name }, SubOutcome.ok)

/-- Client.unsubscribe (lines 199-223): return at once when not subscribed;
otherwise send the unsubscribe envelope and only then remove the event;
a send failure raises SubscriptionError and leaves the set unchanged. -/
def Client.unsubscribe (c : Client) (event_name : String) (request_id : String)
    (ioFail : Bool) : Client × SubOutcome :=
  if c.subscribed.contains event_name then
    let r := c.send_message (subscribeEnvelope request_id "unsubscribe" event_name) ioFail
    if r.2 then (r.1, SubOutcome.subscriptionError)
    else ({ r.1 with subscribed := setRemove r.1.subscribed event_name }, SubOutcome.ok)
  else (c, SubOutcome.noop)

/-- Client.handle_message (lines 225-237): read header.requestId; when it is a
key of the pending table and the waiter is not yet done, latch the message
into it; in every other case the message is discarded with no effect. -/
def Client.handle_message (c : Client) (msg : J) : Client :=
  match (J.get msg "header").bind fun h => J.get h "requestId" with
  | some (J.jstr request_id) =>
      if dictMem c.pending request_id then
        match dictGet c.pending request_id with
        | some FutureState.pending =>
            { c with pending := dictSet c.pending request_id (FutureState.done msg) }
        | _ => c
      else c
  | _ => c

/-- Client.close (lines 239-254): return at once when `_closed` is set;
otherwise set the flag, close the handler with CloseCode.NORMAL, cancel every
not-yet-done pending waiter and clear the table.  The second component is the
table as it stood at cancellation time, with the post-cancellation waiter
states. -/
def Client.close (c : Client) (ioFail : Bool) : Client × PendingTable :=
  if c.closedFlag then (c, [])
  else
    ({ ws := c.ws.close CloseCode.NORMAL ioFail,
       subscribed := c.subscribed,
       pending := [],
       closedFlag := true },
     c.pending.map fun p => (p.1, cancelFuture p.2))

/- ===== Server runtime (dunite/app.py) ===== -/

/-- One registered event handler: an identity plus the `_auto_subscribe`
attribute that Server.on sets on the handler object. -/
structure Handler where
  hid : Nat
  auto_subscribe : Bool

/-- The `_event_handlers` registry: event name → registered handlers, in
insertion order (dict keys are unique). -/
abbrev Registry := List (String × List Handler)

/-- The auto-subscribe loop of Server._handle_client (lines 87-89): for each
registry entry whose handlers include one with auto_subscribe, call
client.subscribe.  `ridOf` supplies the uuid4 requestId used for an event
name.  The Bool is true when a SubscriptionError escaped the loop. -/
def Server.auto_subscribe_setup (reg : Registry) (c : Client)
    (ridOf : String → String) : Client × Bool :=
  match reg with
  | [] => (c, false)
  | (e, hs) :: rest =>
      if hs.any fun h => h.auto_subscribe then
        let r := c.subscribe e (ridOf e) false
        match r.2 with
        | SubOutcome.subscriptionError => (r.1, true)
        | _ => Server.auto_subscribe_setup rest r.1 ridOf
      else Server.auto_subscribe_setup rest c ridOf

/-- Server._shutdown (lines 158-171), restricted to its per-client effect:
`_cleanup_client` runs Client.close on every live client. -/
def Server.shutdown (clients : List Client) : List (Client × PendingTable) :=
  clients.map fun c => c.close false

/- ===== Concrete instances used by counterexamples and witnesses ===== -/

/-- A reply envelope as in spec scenario S4: purpose commandResponse, non-zero
statusCode, no commandLine field in the body. -/
def s4reply : J :=
  J.jobj (JFields.ofList
    [("header", J.jobj (JFields.ofList
       [("version", J.jint 1),
        ("requestId", J.jstr "req-1"),
        ("messagePurpose", J.jstr "commandResponse")])),
     ("body", J.jobj (JFields.ofList
       [("statusCode", J.jint (-2147352576)),
        ("statusMessage", J.jstr "Unknown command")]))])

/-- A reply body with a non-zero statusCode, used to instantiate quantified
theorems about failing command responses. -/
def s4body : J :=
  J.jobj (JFields.ofList
    [("statusCode", J.jint (-2147352576)),
     ("statusMessage", J.jstr "Unknown command")])

/-- A generic inbound envelope shape: header with requestId and purpose, plus
an arbitrary body. -/
def mkResponse (request_id purpose : String) (body : J) : J :=
  J.jobj (JFields.ofList
    [("header", J.jobj (JFields.ofList
       [("requestId", J.jstr request_id),
        ("messagePurpose", J.jstr purpose)])),
     ("body", body)])

/-- An open client with one subscription and one in-flight request. -/
def sampleClient : Client :=
  { ws := { closed := false, written := [] },
    subscribed := ["PlayerMessage"],
    pending := [("req-1", FutureState.pending)],
    closedFlag := false }

/-- A freshly accepted client: no subscriptions, no pending requests, open. -/
def freshClient : Client :=
  { ws := { closed := false, written := [] },
    subscribed := [],
    pending := [],
    closedFlag := false }

/-- A client whose connection is already closed. -/
def closedClient : Client :=
  { ws := { closed := true, written := [] },
    subscribed := [],
    pending := [],
    closedFlag := true }

/-- A two-entry handler registry: one auto-subscribed event, one not. -/
def sampleRegistry : Registry :=
  [("PlayerMessage", [{ hid := 0, auto_subscribe := true }]),
   ("BlockBroken", [{ hid := 1, auto_subscribe := false }])]

/-- The client state after a successful subscribe on an open client: the
subscribe envelope is appended to the written frames and the event name joins
the subscription set.  Used to phrase proofs about the auto-subscribe loop. -/
def afterSubscribe (c : Client) (rid e : String) : Client :=
  { ws := { closed := c.ws.closed,
            written := c.ws.written
              ++ [WSFrame.text (jdump (subscribeEnvelope rid "subscribe" e))] },
    subscribed := c.subscribed ++ [e],
    pending := c.pending,
    closedFlag := c.closedFlag }

/- ===== Helper lemmas about the WebSocket handler ===== -/

theorem wsStep_closed (w : WSState) (op : WSOp) (h : w.closed = true) :
    WSState.step w op = w := by
  cases op with
  | send d io => simp [WSState.step, WSState.send, h]
  | close c io => simp [WSState.step, WSState.close, h]

theorem foldl_wsStep_closed (ops : List WSOp) (w : WSState) (h : w.closed = true) :
    ops.foldl WSState.step w = w := by
  induction ops with
  | nil => rfl
  | cons op rest ih => rw [List.foldl_cons, wsStep_closed w op h, ih]

/- ===== Helper lemmas about Python whitespace handling ===== -/

theorem dropSpaces_nil_of_all (l : List Char) (h : ∀ c ∈ l, pyIsSpace c = true) :
    dropSpaces l = [] := by
  induction l with
  | nil => rfl
  | cons c rest ih =>
      rw [dropSpaces, if_pos (h c (List.mem_cons_self c rest))]
      exact ih fun x hx => h x (List.mem_cons_of_mem c hx)

theorem exists_nonspace_dropSpaces (l : List Char)
    (h : ∃ c ∈ l, pyIsSpace c = false) :
    ∃ c ∈ dropSpaces l, pyIsSpace c = false := by
  induction l with
  | nil =>
      rcases h with ⟨x, hx, _⟩
      cases hx
  | cons c rest ih =>
      by_cases hc : pyIsSpace c
      · rw [dropSpaces, if_pos hc]
        rcases h with ⟨x, hx, hxs⟩
        rcases List.mem_cons.mp hx with rfl | hx'
        · rw [hc] at hxs
          cases hxs
        · exact ih ⟨x, hx', hxs⟩
      · rw [dropSpaces, if_neg hc]
        exact h

theorem exists_nonspace_reverse (l : List Char)
    (h : ∃ c ∈ l, pyIsSpace c = false) :
    ∃ c ∈ l.reverse, pyIsSpace c = false := by
  rcases h with ⟨x, hx, hxs⟩
  exact ⟨x, List.mem_reverse.mpr hx, hxs⟩

theorem command_parse_isSome (s : String)
    (h : ∃ c ∈ s.data, pyIsSpace c = false) :
    (Command.parse s).isSome = true := by
  have h1 : ∃ c ∈ pyStrip s.data, pyIsSpace c = false := by
    unfold pyStrip
    exact exists_nonspace_dropSpaces _
      (exists_nonspace_reverse _ (exists_nonspace_dropSpaces _
        (exists_nonspace_reverse _ h)))
  have h2 : ∃ c ∈ dropSpaces (pyStrip s.data), pyIsSpace c = false :=
    exists_nonspace_dropSpaces _ h1
  have hne : dropSpaces (pyStrip s.data) ≠ [] := by
    rcases h2 with ⟨x, hx, _⟩
    exact List.ne_nil_of_mem hx
  unfold Command.parse pySplitMax1
  simp only [hne, if_false]
  by_cases hr : dropSpaces (List.dropWhile (fun c => !pyIsSpace c) (dropSpaces (pyStrip s.data))) = []
  · simp [hr]
  · simp [hr]

theorem dictGet_cons (p : String × FutureState) (rest : PendingTable) (k : String) :
    dictGet (p :: rest) k = if p.1 == k then some p.2 else dictGet rest k := by
  by_cases h : p.1 == k <;> simp [dictGet, List.find?, h]

theorem dictMem_cons (p : String × FutureState) (rest : PendingTable) (k : String) :
    dictMem (p :: rest) k = (p.1 == k || dictMem rest k) := by
  simp [dictMem]

theorem dictMem_eq_isSome (t : PendingTable) (k : String) :
    dictMem t k = (dictGet t k).isSome := by
  induction t with
  | nil => rfl
  | cons p rest ih =>
      rw [dictMem_cons, dictGet_cons]
      by_cases h : p.1 == k
      · simp [h]
      · simp [h, ih]

theorem dictGet_map_update_self (t : PendingTable) (k : String) (v : FutureState)
    (hm : dictMem t k = true) :
    dictGet (t.map fun p => if p.1 == k then (k, v) else p) k = some v := by
  induction t with
  | nil => simp [dictMem] at hm
  | cons p rest ih =>
      by_cases h : p.1 == k
      · rw [List.map_cons, if_pos h, dictGet_cons]
        simp
      · rw [dictMem_cons] at hm
        rw [Bool.or_eq_true] at hm
        rcases hm with hm | hm
        · exact absurd hm h
        · rw [List.map_cons, if_neg h, dictGet_cons, if_neg (by simpa using h)]
          exact ih hm

theorem dictGet_append_single_none (t : PendingTable) (k k' : String)
    (v : FutureState) (hg : dictGet t k' = none) :
    dictGet (t ++ [(k, v)]) k' = if k == k' then some v else none := by
  induction t with
  | nil =>
      rw [List.nil_append, dictGet_cons]
      by_cases h : k == k' <;> simp [h, dictGet]
  | cons p rest ih =>
      rw [dictGet_cons] at hg
      rw [List.cons_append, dictGet_cons]
      by_cases h : p.1 == k'
      · rw [if_pos h] at hg
        exact absurd hg (by simp)
      · rw [if_neg h] at hg
        rw [if_neg h]
        exact ih hg

theorem dictGet_append_single_some (t : PendingTable) (k k' : String)
    (v f : FutureState) (hg : dictGet t k' = some f) :
    dictGet (t ++ [(k, v)]) k' = some f := by
  induction t with
  | nil => simp [dictGet, List.find?] at hg
  | cons p rest ih =>
      rw [dictGet_cons] at hg
      rw [List.cons_append, dictGet_cons]
      by_cases h : p.1 == k'
      · rw [if_pos h] at hg
        rw [if_pos h]
        exact hg
      · rw [if_neg h] at hg
        rw [if_neg h]
        exact ih hg

theorem dictGet_dictSet_self (t : PendingTable) (k : String) (v : FutureState) :
    dictGet (dictSet t k v) k = some v := by
  unfold dictSet
  by_cases hm : dictMem t k
  · rw [if_pos hm]
    exact dictGet_map_update_self t k v hm
  · have hm' : dictMem t k = false := by simpa using hm
    rw [if_neg hm]
    have hg : dictGet t k = none := by
      rw [dictMem_eq_isSome] at hm'
      exact Option.not_isSome_iff_eq_none.mp (by simp [hm'])
    rw [dictGet_append_single_none t k k v hg]
    simp

theorem dictGet_map_update_ne (t : PendingTable) (k k' : String) (v : FutureState)
    (h : k' ≠ k) :
    dictGet (t.map fun p => if p.1 == k then (k, v) else p) k' = dictGet t k' := by
  have hkk' : (k == k') = false := by
    simp only [beq_eq_false_iff_ne]
    exact fun hh => h hh.symm
  induction t with
  | nil => rfl
  | cons p rest ih =>
      by_cases hp : p.1 == k
      · have hp1 : p.1 = k := by simpa using hp
        have hp' : (p.1 == k') = false := by rw [hp1]; exact hkk'
        rw [List.map_cons, if_pos hp, dictGet_cons, dictGet_cons]
        simp only [hkk', hp', Bool.false_eq_true, if_false]
        exact ih
      · rw [List.map_cons, if_neg hp, dictGet_cons, dictGet_cons]
        by_cases hq : p.1 == k'
        · rw [if_pos hq, if_pos hq]
        · rw [if_neg hq, if_neg hq]
          exact ih

theorem dictGet_dictSet_ne (t : PendingTable) (k k' : String) (v : FutureState)
    (h : k' ≠ k) : dictGet (dictSet t k v) k' = dictGet t k' := by
  have hkk' : (k == k') = false := by
    simp only [beq_eq_false_iff_ne]
    exact fun hh => h hh.symm
  unfold dictSet
  by_cases hm : dictMem t k
  · rw [if_pos hm]
    exact dictGet_map_update_ne t k k' v h
  · rw [if_neg hm]
    cases hg : dictGet t k' with
    | none => rw [dictGet_append_single_none t k k' v hg, hkk']
              simp
    | some f => exact dictGet_append_single_some t k k' v f hg

theorem dictGet_dictPop_self (t : PendingTable) (k : String) :
    dictGet (dictPop t k) k = none := by
  induction t with
  | nil => rfl
  | cons p rest ih =>
      unfold dictPop
      rw [List.filter_cons]
      by_cases h : p.1 == k
      · have hb : (p.1 != k) = false := by simp [bne, h]
        rw [hb]
        simp only [Bool.false_eq_true, if_false]
        exact ih
      · have hb : (p.1 != k) = true := by simp [bne, h]
        rw [hb]
        simp only [if_true]
        rw [dictGet_cons, if_neg h]
        exact ih

/-- Unfolding of Client.handle_message once the header requestId is known to
be the string `rid`. -/
theorem handle_message_eq (c : Client) (msg : J) (rid : String)
    (hs : ((J.get msg "header").bind fun h => J.get h "requestId")
            = some (J.jstr rid)) :
    c.handle_message msg =
      if dictMem c.pending rid then
        match dictGet c.pending rid with
        | some FutureState.pending =>
            { c with pending := dictSet c.pending rid (FutureState.done msg) }
        | _ => c
      else c := by
  unfold Client.handle_message
  rw [hs]

/- ===== Claim theorems ===== -/

/-- Claim C9: close on a WebSocketHandler is idempotent; only the first call
writes the close frame; afterwards no operation writes any frame and a send
fails, so the close frame is the last frame written. -/
theorem C9_close_idempotent (w : WSState) (code : Nat) (hw : w.closed = false) :
    (w.close code false).written = w.written ++ [WSFrame.closeFrame code]
    ∧ (w.close code false).closed = true
    ∧ (∀ ops : List WSOp,
        ops.foldl WSState.step (w.close code false) = w.close code false)
    ∧ (∀ d io, (w.close code false).send d io = (w.close code false, true))
    ∧ (w.close code false).written.getLast? = some (WSFrame.closeFrame code) := by
  have h1 : w.close code false
      = { closed := true, written := w.written ++ [WSFrame.closeFrame code] } := by
    unfold WSState.close
    rw [if_neg (by simp [hw])]
    rw [if_neg (by simp)]
  refine ⟨by rw [h1], by rw [h1], ?_, ?_, ?_⟩
  · intro ops
    exact foldl_wsStep_closed ops _ (by rw [h1])
  · intro d io
    unfold WSState.send
    rw [if_pos (by rw [h1])]
  · rw [h1]
    exact List.getLast?_concat _

/-- Witness for C9 at a fresh open handler and close code 1000. -/
theorem C9_witness :
    (WSState.close { closed := false, written := [] } 1000 false).written
      = [] ++ [WSFrame.closeFrame 1000]
    ∧ [WSOp.send "hello" false, WSOp.close 1001 false].foldl WSState.step
        (WSState.close { closed := false, written := [] } 1000 false)
      = WSState.close { closed := false, written := [] } 1000 false :=
  ⟨(C9_close_idempotent { closed := false, written := [] } 1000 rfl).1,
   (C9_close_idempotent { closed := false, written := [] } 1000 rfl).2.2.1 _⟩

/-- Claim C2 counterexample: Client.close never clears the subscription set,
so a session closed while subscribed to PlayerMessage still has a non-empty
subscription set afterwards, contradicting the claim. -/
theorem C2_counterexample :
    (sampleClient.close false).1.subscribed = ["PlayerMessage"]
    ∧ (sampleClient.close false).1.subscribed ≠ [] := by
  refine ⟨rfl, ?_⟩
  intro h
  rw [show (sampleClient.close false).1.subscribed = ["PlayerMessage"] from rfl] at h
  cases h

/-- Claim C2 (amended): after the close call on a not-yet-closed client, the
pending-request table is empty and every waiter that was in it has been
cancelled or had already completed; the subscription set is left unchanged
rather than emptied. -/
theorem C2_close_state (c : Client) (io : Bool) (h : c.closedFlag = false) :
    (c.close io).1.pending = []
    ∧ (∀ p ∈ (c.close io).2, p.2 ≠ FutureState.pending)
    ∧ (c.close io).1.subscribed = c.subscribed := by
  unfold Client.close
  rw [if_neg (by simp [h])]
  refine ⟨rfl, ?_, rfl⟩
  intro p hp
  rcases List.mem_map.mp hp with ⟨q, _, rfl⟩
  cases q.2 with
  | pending => simp [cancelFuture]
  | done v => simp [cancelFuture]
  | cancelled => simp [cancelFuture]

/-- Witness for C2 at a client with a subscription and one pending request. -/
theorem C2_witness :
    (sampleClient.close false).1.pending = []
    ∧ (sampleClient.close false).1.subscribed = sampleClient.subscribed :=
  ⟨(C2_close_state sampleClient false rfl).1,
   (C2_close_state sampleClient false rfl).2.2⟩

/-- Claim C3 counterexample: during shutdown a live session is closed with
close code 1000 (CloseCode.NORMAL), not 1001 (GOING_AWAY) as the claim
states. -/
theorem C3_counterexample :
    Server.shutdown [sampleClient]
      = [({ ws := { closed := true, written := [WSFrame.closeFrame 1000] },
            subscribed := ["PlayerMessage"],
            pending := [],
            closedFlag := true },
          [("req-1", FutureState.cancelled)])]
    ∧ (1000 : Nat) ≠ CloseCode.GOING_AWAY := by
  refine ⟨rfl, ?_⟩
  decide

/-- Claim C3 (amended): during graceful shutdown every live session is closed
through Client.close, which initiates the close handshake with code 1000
(CloseCode.NORMAL, not 1001) and cancels all of that session's pending
waiters. -/
theorem C3_shutdown (clients : List Client) (c : Client) (hc : c ∈ clients)
    (hflag : c.closedFlag = false) (hws : c.ws.closed = false) :
    c.close false ∈ Server.shutdown clients
    ∧ (c.close false).1.ws.written
        = c.ws.written ++ [WSFrame.closeFrame CloseCode.NORMAL]
    ∧ (c.close false).1.ws.closed = true
    ∧ (∀ p ∈ (c.close false).2, p.2 ≠ FutureState.pending) := by
  have h1 : c.close false
      = ({ ws := { closed := true,
                   written := c.ws.written ++ [WSFrame.closeFrame CloseCode.NORMAL] },
           subscribed := c.subscribed,
           pending := [],
           closedFlag := true },
         c.pending.map fun p => (p.1, cancelFuture p.2)) := by
    unfold Client.close
    rw [if_neg (by simp [hflag])]
    unfold WSState.close
    rw [if_neg (by simp [hws])]
    rw [if_neg (by simp)]
  refine ⟨List.mem_map_of_mem _ hc, by rw [h1], by rw [h1], ?_⟩
  intro p hp
  rw [h1] at hp
  rcases List.mem_map.mp hp with ⟨q, _, rfl⟩
  cases q.2 with
  | pending => simp [cancelFuture]
  | done v => simp [cancelFuture]
  | cancelled => simp [cancelFuture]

/-- Witness for C3 at a one-session server with an in-flight request. -/
theorem C3_witness :
    (sampleClient.close false).1.ws.written
      = sampleClient.ws.written ++ [WSFrame.closeFrame CloseCode.NORMAL]
    ∧ sampleClient.close false ∈ Server.shutdown [sampleClient] :=
  ⟨(C3_shutdown [sampleClient] sampleClient (List.mem_singleton.mpr rfl) rfl rfl).2.1,
   (C3_shutdown [sampleClient] sampleClient (List.mem_singleton.mpr rfl) rfl rfl).1⟩

/-- Claim C4: an inbound message whose header.requestId is R is delivered to
exactly the waiter installed for R and to no other table entry; a waiter that
is already done keeps its value (the duplicate is discarded); with no waiter
installed for R the message is discarded with no effect and no error. -/
theorem C4_correlation (c : Client) (msg hdr : J) (rid : String)
    (hh : J.get msg "header" = some hdr)
    (hr : J.get hdr "requestId" = some (J.jstr rid)) :
    (dictGet c.pending rid = none → c.handle_message msg = c)
    ∧ (dictGet c.pending rid = some FutureState.pending →
        dictGet (c.handle_message msg).pending rid = some (FutureState.done msg)
        ∧ (∀ k, k ≠ rid →
            dictGet (c.handle_message msg).pending k = dictGet c.pending k)
        ∧ (c.handle_message msg).subscribed = c.subscribed
        ∧ (c.handle_message msg).closedFlag = c.closedFlag
        ∧ (c.handle_message msg).ws = c.ws)
    ∧ (∀ f, dictGet c.pending rid = some f → f.isDone = true →
        c.handle_message msg = c) := by
  have hs : ((J.get msg "header").bind fun h => J.get h "requestId")
      = some (J.jstr rid) := by
    rw [hh]
    exact hr
  have hm := handle_message_eq c msg rid hs
  refine ⟨?_, ?_, ?_⟩
  · intro hg
    rw [hm, dictMem_eq_isSome, hg]
    rfl
  · intro hg
    have hmem : dictMem c.pending rid = true := by
      rw [dictMem_eq_isSome, hg]
      rfl
    rw [hm, if_pos hmem, hg]
    refine ⟨dictGet_dictSet_self _ _ _, ?_, rfl, rfl, rfl⟩
    intro k hk
    exact dictGet_dictSet_ne _ _ _ _ hk
  · intro f hg hd
    rw [hm, dictMem_eq_isSome, hg]
    cases f with
    | pending => cases hd
    | done v => rfl
    | cancelled => rfl

/-- Witness for C4: a commandResponse reply latches into the installed waiter. -/
theorem C4_witness :
    dictGet (sampleClient.handle_message s4reply).pending "req-1"
      = some (FutureState.done s4reply) :=
  ((C4_correlation sampleClient s4reply
      (J.jobj (JFields.ofList
        [("version", J.jint 1),
         ("requestId", J.jstr "req-1"),
         ("messagePurpose", J.jstr "commandResponse")]))
      "req-1" rfl rfl).2.1 rfl).1

/-- Claim C6: the run_command waiter is awaited with a 10-second timeout; when
it fires the pending entry for the requestId is removed, the caller gets a
CommandError naming the timeout, the session flags are untouched, and a late
reply carrying that requestId is then discarded without effect. -/
theorem C6_timeout (c : Client) (rid cl : String) :
    commandTimeoutSeconds = 10
    ∧ (c.run_command_await rid cl AwaitResult.timedOut).2
        = RunOutcome.commandError (J.jstr "Command timed out")
            (J.jint (-1)) (J.jstr cl)
    ∧ dictGet (c.run_command_await rid cl AwaitResult.timedOut).1.pending rid = none
    ∧ (c.run_command_await rid cl AwaitResult.timedOut).1.closedFlag = c.closedFlag
    ∧ (c.run_command_await rid cl AwaitResult.timedOut).1.ws = c.ws
    ∧ (∀ msg hdr, J.get msg "header" = some hdr →
        J.get hdr "requestId" = some (J.jstr rid) →
        Client.handle_message (c.run_command_await rid cl AwaitResult.timedOut).1 msg
          = (c.run_command_await rid cl AwaitResult.timedOut).1) := by
  have h1 : (c.run_command_await rid cl AwaitResult.timedOut).1
      = { c with pending := dictPop c.pending rid } := rfl
  refine ⟨rfl, rfl, ?_, rfl, rfl, ?_⟩
  · rw [h1]
    exact dictGet_dictPop_self _ _
  · intro msg hdr hh hr
    have hs : ((J.get msg "header").bind fun h => J.get h "requestId")
        = some (J.jstr rid) := by
      rw [hh]
      exact hr
    rw [handle_message_eq _ msg rid hs, h1]
    have hg : dictGet (dictPop c.pending rid) rid = none := dictGet_dictPop_self _ _
    rw [dictMem_eq_isSome]
    simp only [hg]
    rfl

/-- Witness for C6 at a client with one in-flight request and a late reply. -/
theorem C6_witness :
    dictGet (sampleClient.run_command_await "req-1" "say hello"
        AwaitResult.timedOut).1.pending "req-1" = none
    ∧ Client.handle_message
        (sampleClient.run_command_await "req-1" "say hello" AwaitResult.timedOut).1
        s4reply
      = (sampleClient.run_command_await "req-1" "say hello" AwaitResult.timedOut).1 :=
  ⟨(C6_timeout sampleClient "req-1" "say hello").2.2.1,
   (C6_timeout sampleClient "req-1" "say hello").2.2.2.2.2 s4reply
      (J.jobj (JFields.ofList
        [("version", J.jint 1),
         ("requestId", J.jstr "req-1"),
         ("messagePurpose", J.jstr "commandResponse")]))
      rfl rfl⟩

/-- Claim C1 counterexample: for the spec S4 reply (statusCode -2147352576,
statusMessage Unknown command, no commandLine field in the body) to the
command say hello, the raised CommandError carries the command string unknown
taken from the reply body default, not the original command line. -/
theorem C1_counterexample :
    (sampleClient.run_command_await "req-1" "say hello"
        (AwaitResult.delivered s4reply)).2
      = RunOutcome.commandError (J.jstr "Unknown command")
          (J.jint (-2147352576)) (J.jstr "unknown")
    ∧ (J.jstr "unknown") ≠ (J.jstr "say hello") := by
  refine ⟨rfl, ?_⟩
  intro h
  injection h with h1
  exact absurd h1 (by decide)

/-- Claim C1 (amended): a reply whose purpose does not contain the substring
error and whose body carries a non-zero integer statusCode fails the call
with a CommandError carrying that statusCode, that statusMessage, and the
commandLine field of the reply body when present, defaulting to the string
unknown; the original command line is not used for this error. -/
theorem C1_command_error (c : Client) (rid cl purpose : String) (body : J)
    (n : Int) (m : J)
    (hp : pyInStr "error" purpose.data = false)
    (hc : J.get body "statusCode" = some (J.jint n))
    (hn : n ≠ 0)
    (hm : J.get body "statusMessage" = some m) :
    (c.run_command_await rid cl
        (AwaitResult.delivered (mkResponse rid purpose body))).2
      = RunOutcome.commandError m (J.jint n)
          (pyGet body "commandLine" (J.jstr "unknown")) := by
  have hstart : (c.run_command_await rid cl
      (AwaitResult.delivered (mkResponse rid purpose body))).2
      = processResponse (mkResponse rid purpose body) cl := rfl
  rw [hstart]
  have step1 : processResponse (mkResponse rid purpose body) cl
      = if pyInStr "error" purpose.data then
          (match (J.get (mkResponse rid purpose body) "body").bind
              (fun b => J.get b "statusMessage") with
           | some mm => RunOutcome.commandError mm (J.jint (-1)) (J.jstr cl)
           | none => RunOutcome.uncaught)
        else CommandResponse.from_dict (mkResponse rid purpose body) := rfl
  rw [step1, if_neg (by rw [hp]; simp)]
  have step2 : CommandResponse.from_dict (mkResponse rid purpose body)
      = if pyNeZero (pyGet body "statusCode" (J.jint (-1))) then
          RunOutcome.commandError (pyGet body "statusMessage" (J.jstr "Unknown error"))
            (pyGet body "statusCode" (J.jint (-1)))
            (pyGet body "commandLine" (J.jstr "unknown"))
        else RunOutcome.success (pyGet body "statusCode" (J.jint (-1)))
            (pyGet body "statusMessage" (J.jstr "Unknown error"))
            (mkResponse rid purpose body) := rfl
  rw [step2]
  have hcode : pyGet body "statusCode" (J.jint (-1)) = J.jint n := by
    unfold pyGet
    rw [hc]
    rfl
  have hmsg : pyGet body "statusMessage" (J.jstr "Unknown error") = m := by
    unfold pyGet
    rw [hm]
    rfl
  rw [hcode, hmsg, if_pos]
  show pyNeZero (J.jint n) = true
  show (n != 0) = true
  exact bne_iff_ne.mpr hn

/-- Witness for C1 at the S4 reply body and the command say hello. -/
theorem C1_witness :
    (sampleClient.run_command_await "req-1" "say hello"
        (AwaitResult.delivered (mkResponse "req-1" "commandResponse" s4body))).2
      = RunOutcome.commandError (J.jstr "Unknown command")
          (J.jint (-2147352576))
          (pyGet s4body "commandLine" (J.jstr "unknown")) :=
  C1_command_error sampleClient "req-1" "say hello" "commandResponse" s4body
    (-2147352576) (J.jstr "Unknown command") rfl rfl (by decide) rfl

/-- Claim C5: for every command, run_command installs a waiter keyed by the
generated requestId in the pending table and transmits, as the JSON encoding
of exactly the documented envelope, a commandRequest whose commandLine is the
command string; the envelope is sent on the state that already holds the
waiter (install precedes transmit in Client.run_command_send). -/
theorem C5_run_command_send (c : Client) (rid : String) (cmd : Command)
    (hflag : c.closedFlag = false) (hws : c.ws.closed = false) :
    (c.run_command_send rid cmd false).2.1
      = J.jobj (JFields.ofList
          [("header", J.jobj (JFields.ofList
             [("version", J.jint 1),
              ("requestId", J.jstr rid),
              ("messagePurpose", J.jstr "commandRequest"),
              ("messageType", J.jstr "commandRequest")])),
           ("body", J.jobj (JFields.ofList
             [("version", J.jint 1),
              ("commandLine", J.jstr cmd.str),
              ("origin", J.jobj (JFields.ofList [("type", J.jstr "player")]))]))])
    ∧ dictGet (c.run_command_send rid cmd false).1.pending rid
        = some FutureState.pending
    ∧ (c.run_command_send rid cmd false).1.ws.written
        = c.ws.written ++ [WSFrame.text (jdump (commandRequestEnvelope rid cmd.str))]
    ∧ (c.run_command_send rid cmd false).2.2 = false := by
  have hclosed : ({ c with pending := dictSet c.pending rid FutureState.pending
      } : Client).closed = false := by
    simp [Client.closed, hflag, hws]
  have h1 : c.run_command_send rid cmd false
      = ({ ws := { closed := c.ws.closed,
                   written := c.ws.written
                     ++ [WSFrame.text (jdump (commandRequestEnvelope rid cmd.str))] },
           subscribed := c.subscribed,
           pending := dictSet c.pending rid FutureState.pending,
           closedFlag := c.closedFlag },
         commandRequestEnvelope rid cmd.str, false) := by
    simp [Client.run_command_send, Client.send_message, WSState.send,
      Client.closed, hflag, hws]
  refine ⟨by rw [h1]; rfl, ?_, by rw [h1], by rw [h1]⟩
  rw [h1]
  exact dictGet_dictSet_self _ _ _

/-- Witness for C5 at a fresh client and the command say hello. -/
theorem C5_witness :
    dictGet (freshClient.run_command_send "req-1"
        { name := "say", args := some "hello", input_data := none } false).1.pending
        "req-1"
      = some FutureState.pending
    ∧ (freshClient.run_command_send "req-1"
        { name := "say", args := some "hello", input_data := none } false).1.ws.written
      = freshClient.ws.written
        ++ [WSFrame.text (jdump (commandRequestEnvelope "req-1"
              (Command.str { name := "say", args := some "hello", input_data := none })))] :=
  ⟨(C5_run_command_send freshClient "req-1"
      { name := "say", args := some "hello", input_data := none } rfl rfl).2.1,
   (C5_run_command_send freshClient "req-1"
      { name := "say", args := some "hello", input_data := none } rfl rfl).2.2.1⟩

/-- Claim C7: subscribe on an already-subscribed event and unsubscribe on an
event not in the set are no-ops that send nothing and leave the whole client
state unchanged; when the send fails (closed connection or io failure) the
subscription set is not updated and a SubscriptionError is reported. -/
theorem C7_subscription (c : Client) (e rid : String) (io : Bool) :
    (c.subscribed.contains e = true →
      c.subscribe e rid io = (c, SubOutcome.noop))
    ∧ (c.subscribed.contains e = false →
      c.unsubscribe e rid io = (c, SubOutcome.noop))
    ∧ (c.subscribed.contains e = false → (c.closed = true ∨ io = true) →
      c.subscribe e rid io = (c, SubOutcome.subscriptionError))
    ∧ (c.subscribed.contains e = true → (c.closed = true ∨ io = true) →
      c.unsubscribe e rid io = (c, SubOutcome.subscriptionError)) := by
  have send_fail : (c.closed = true ∨ io = true) →
      ∀ m : J, c.send_message m io = (c, true) := by
    intro hfail m
    unfold Client.send_message
    rcases hfail with hcl | hio
    · rw [if_pos hcl]
    · by_cases hcl : c.closed = true
      · rw [if_pos hcl]
      · rw [if_neg hcl]
        unfold WSState.send
        have hwscl : c.ws.closed = false := by
          have : c.closedFlag = false ∧ c.ws.closed = false := by
            have := hcl
            unfold Client.closed at this
            constructor
            · cases hf : c.closedFlag
              · rfl
              · exact absurd (by rw [hf]; rfl) this
            · cases hw : c.ws.closed
              · rfl
              · exact absurd (by unfold Client.closed; rw [hw]; simp) hcl
          exact this.2
        rw [if_neg (by rw [hwscl]; simp), if_pos hio]
  refine ⟨?_, ?_, ?_, ?_⟩
  · intro hmem
    unfold Client.subscribe
    rw [if_pos hmem]
  · intro hmem
    unfold Client.unsubscribe
    rw [if_neg (by rw [hmem]; simp)]
  · intro hmem hfail
    unfold Client.subscribe
    rw [if_neg (by rw [hmem]; simp)]
    rw [send_fail hfail _]
    simp
  · intro hmem hfail
    unfold Client.unsubscribe
    rw [if_pos hmem]
    rw [send_fail hfail _]
    simp

/-- Witness for C7: a duplicate subscribe is a no-op, and a subscribe on a
closed client reports a SubscriptionError without touching the set. -/
theorem C7_witness :
    sampleClient.subscribe "PlayerMessage" "req-2" false
      = (sampleClient, SubOutcome.noop)
    ∧ closedClient.subscribe "PlayerMessage" "req-2" false
      = (closedClient, SubOutcome.subscriptionError) :=
  ⟨(C7_subscription sampleClient "PlayerMessage" "req-2" false).1 rfl,
   (C7_subscription closedClient "PlayerMessage" "req-2" false).2.2.1 rfl
     (Or.inl rfl)⟩

/-- A successful Client.subscribe on an open client not yet subscribed to the
event: the subscribe envelope is written and the event joins the set. -/
theorem subscribe_success (c : Client) (e rid : String)
    (hflag : c.closedFlag = false) (hws : c.ws.closed = false)
    (hmem : c.subscribed.contains e = false) :
    c.subscribe e rid false = (afterSubscribe c rid e, SubOutcome.ok) := by
  have hmem' : e ∉ c.subscribed := by
    simpa [List.contains, List.elem_eq_mem] using hmem
  unfold Client.subscribe
  rw [if_neg (by rw [hmem]; simp)]
  simp [Client.send_message, WSState.send, Client.closed, hflag, hws, setAdd,
    hmem, hmem', afterSubscribe]

/-- Appending a fresh element keeps an event out of the subscription set. -/
theorem contains_append_single_false (l : List String) (a e : String)
    (h1 : l.contains a = false) (h2 : a ≠ e) :
    (l ++ [e]).contains a = false := by
  have h1' : a ∉ l := by simpa [List.contains, List.elem_eq_mem] using h1
  simp [List.contains, List.elem_eq_mem, List.mem_append, h1', h2]

/-- Frames written during the auto-subscribe loop, for any client state whose
subscription set avoids the registry keys. -/
theorem auto_setup_aux (reg : Registry) (c : Client) (ridOf : String → String)
    (hflag : c.closedFlag = false) (hws : c.ws.closed = false)
    (hnd : (reg.map Prod.fst).Nodup)
    (hsub : ∀ p ∈ reg, c.subscribed.contains p.1 = false) :
    (Server.auto_subscribe_setup reg c ridOf).1.ws.written
      = c.ws.written
        ++ (reg.filter fun p => p.2.any fun h => h.auto_subscribe).map
            (fun p => WSFrame.text (jdump (subscribeEnvelope (ridOf p.1) "subscribe" p.1))) := by
  induction reg generalizing c with
  | nil => simp [Server.auto_subscribe_setup]
  | cons p rest ih =>
      obtain ⟨e, hs⟩ := p
      have hnd1 : (e :: List.map Prod.fst rest).Nodup := by
        rw [List.map_cons] at hnd
        exact hnd
      have hnd0 := List.nodup_cons.mp hnd1
      have he : e ∉ rest.map Prod.fst := hnd0.1
      have hnd' : (rest.map Prod.fst).Nodup := hnd0.2
      by_cases hany : (hs.any fun h => h.auto_subscribe) = true
      · have hstep := subscribe_success c e (ridOf e) hflag hws
          (hsub (e, hs) (List.mem_cons_self _ _))
        have hrec :
            Server.auto_subscribe_setup ((e, hs) :: rest) c ridOf
              = Server.auto_subscribe_setup rest (afterSubscribe c (ridOf e) e) ridOf := by
          simp only [Server.auto_subscribe_setup, hany, if_true, hstep]
        have hsub' : ∀ q ∈ rest,
            (afterSubscribe c (ridOf e) e).subscribed.contains q.1 = false := by
          intro q hq
          refine contains_append_single_false _ _ _
            (hsub q (List.mem_cons_of_mem _ hq)) ?_
          intro hqe
          exact he (hqe ▸ List.mem_map_of_mem Prod.fst hq)
        have hih := ih (afterSubscribe c (ridOf e) e) hflag hws hnd' hsub'
        rw [hrec, hih, List.filter_cons]
        simp [afterSubscribe, hany, List.append_assoc]
      · have hany' : (hs.any fun h => h.auto_subscribe) = false := by
          simpa using hany
        have hrec :
            Server.auto_subscribe_setup ((e, hs) :: rest) c ridOf
              = Server.auto_subscribe_setup rest c ridOf := by
          simp only [Server.auto_subscribe_setup, hany', Bool.false_eq_true, if_false]
        rw [hrec, ih c hflag hws hnd' fun q hq => hsub q (List.mem_cons_of_mem _ hq)]
        rw [List.filter_cons]
        simp [hany']

/-- Claim C8: when a new session is set up, the server sends exactly one
subscribe message per registered event name that has at least one handler
with auto_subscribe, in registry order, and none for the other names: the
frames written during setup are exactly the subscribe envelopes of the
auto-subscribed names. -/
theorem C8_auto_subscribe (reg : Registry) (c : Client) (ridOf : String → String)
    (hflag : c.closedFlag = false) (hws : c.ws.closed = false)
    (hfresh : c.subscribed = [])
    (hnd : (reg.map Prod.fst).Nodup) :
    (Server.auto_subscribe_setup reg c ridOf).1.ws.written
      = c.ws.written
        ++ (reg.filter fun p => p.2.any fun h => h.auto_subscribe).map
            (fun p => WSFrame.text (jdump (subscribeEnvelope (ridOf p.1) "subscribe" p.1))) :=
  auto_setup_aux reg c ridOf hflag hws hnd
    (fun p _ => by rw [hfresh]; rfl)

/-- Witness for C8 at a registry with one auto-subscribed and one opted-out
event name. -/
theorem C8_witness :
    (Server.auto_subscribe_setup sampleRegistry freshClient
        (fun _ => "req-9")).1.ws.written
      = freshClient.ws.written
        ++ (sampleRegistry.filter fun p => p.2.any fun h => h.auto_subscribe).map
            (fun p => WSFrame.text (jdump (subscribeEnvelope "req-9" "subscribe" p.1))) :=
  C8_auto_subscribe sampleRegistry freshClient (fun _ => "req-9") rfl rfl rfl
    (by decide)

/-- Claim C10 counterexample: Context.reply prefixes the message with say, so
the command line it builds for the empty (whitespace-only) message parses
successfully instead of raising IndexError. -/
theorem C10_counterexample :
    Context.run_command_parse (reply_command_line "")
      = CtxRunOutcome.proceeds { name := "say", args := none, input_data := none }
    ∧ Context.run_command_parse (reply_command_line "")
        ≠ CtxRunOutcome.indexError := by
  refine ⟨rfl, ?_⟩
  intro h
  rw [show Context.run_command_parse (reply_command_line "")
      = CtxRunOutcome.proceeds { name := "say", args := none, input_data := none }
    from rfl] at h
  cases h

/-- Claim C10 (amended): Command.parse is not total: every whitespace-only
command line (including the empty string) raises an unhandled IndexError, so
Context.run_command called with such a string fails with an uncaught error
rather than a command error; Context.reply always prefixes say to its
message, so the command line it builds never triggers the IndexError. -/
theorem C10_parse_not_total (s m : String)
    (hs : ∀ ch ∈ s.data, pyIsSpace ch = true) :
    Command.parse s = none
    ∧ Context.run_command_parse s = CtxRunOutcome.indexError
    ∧ Context.run_command_parse (reply_command_line m)
        ≠ CtxRunOutcome.indexError := by
  have hp : Command.parse s = none := by
    unfold Command.parse
    have h1 : pyStrip s.data = [] := by
      unfold pyStrip
      have h2 : dropSpaces s.data.reverse = [] :=
        dropSpaces_nil_of_all _ (fun c hc => hs c (List.mem_reverse.mp hc))
      rw [h2]
      rfl
    rw [h1]
    rfl
  refine ⟨hp, ?_, ?_⟩
  · unfold Context.run_command_parse
    rw [hp]
  · have hsome : (Command.parse (reply_command_line m)).isSome = true := by
      apply command_parse_isSome
      refine ⟨'s', ?_, by decide⟩
      show 's' ∈ (reply_command_line m).data
      unfold reply_command_line
      rw [String.data_append]
      exact List.mem_append_left _ (by decide)
    unfold Context.run_command_parse
    cases hpar : Command.parse (reply_command_line m) with
    | none =>
        rw [hpar] at hsome
        cases hsome
    | some cmd =>
        intro h
        cases h

/-- Witness for C10 at the one-space command line and the empty reply
message. -/
theorem C10_witness :
    Command.parse " " = none
    ∧ Context.run_command_parse " " = CtxRunOutcome.indexError :=
  ⟨(C10_parse_not_total " " "" (by decide)).1,
   (C10_parse_not_total " " "" (by decide)).2.1⟩

end Dunite
